import Mathlib

/-!
Verification development for the GraniteMoeHybrid model fragment
(src/transformers/models/granitemoehybrid/modular_granitemoehybrid.py).

The embedding has three layers:
* a value-level semantics of the tensor dataflow of
  GraniteMultiHeadLatentAttention.forward and
  GraniteMoeHybridDecoderLayer.forward, over tensors modelled as nested
  lists of rationals (torch primitives such as nn.Linear, torch.cat and
  the DynamicCache are modelled from their documented behaviour; the
  scaled-dot-product attention kernel is kept abstract as a function
  parameter, since it lives in the host framework);
* a shape-level semantics of GraniteMultiHeadLatentAttention.forward that
  tracks the shape checks torch performs (Linear input width, view/reshape
  with an inferred -1 dimension);
* a model of the Python keyword-call convention for the decoder layer's
  call into its sequence mixer.
-/

namespace GraniteMoeHybrid

/-- A feature vector (last tensor dimension). -/
abbrev Vec := List ℚ

/-- A 3-d tensor (batch, sequence, features) as nested lists. -/
abbrev T3 := List (List Vec)

/-- A 4-d tensor (batch, heads, sequence, head features). -/
abbrev T4 := List T3

/-- A weight matrix, stored as torch does for nn.Linear: one row per
output feature, each row of length in-features. -/
abbrev Matrix := List Vec

/-- Random source for dropout masks: indexed by (batch, row, feature). -/
abbrev NoiseFn := Nat → Nat → Nat → Bool

/-- Configuration fields of GraniteMoeHybridConfig that the fragment reads
(lines 40-69, 142, 144 of the source). `residual_multiplier` is read via
the GraniteMoeShared parent class. -/
structure Config where
  hidden_size : Nat
  num_attention_heads : Nat
  mla_query_comp_size : Nat
  mla_key_value_comp_size : Nat
  attention_multiplier : Option ℚ
  mla_softmax_dropout : ℚ
  mla_dropout : ℚ
  shared_intermediate_size : Nat
  layer_types : List String
  residual_multiplier : ℚ
  num_hidden_layers : Nat

/-- Dot product of two feature vectors. -/
def dot (a b : Vec) : ℚ := (List.zipWith (fun x y => x * y) a b).sum

/-- Modelled from the spec: torch nn.Linear with bias=False computes
y = W x; `w` has one row per output feature. -/
def matVec (w : Matrix) (v : Vec) : Vec := w.map (fun row => dot row v)

/-- A bias-free linear layer applied along the last dimension of a 3-d
tensor, as nn.Linear does. -/
def linearNoBias (w : Matrix) (x : T3) : T3 :=
  x.map (fun rows => rows.map (matVec w))

/-- Apply a function to every feature vector of a 3-d tensor. -/
def mapVec (f : Vec → Vec) (x : T3) : T3 := x.map (fun rows => rows.map f)

/-- Elementwise sum of two vectors. -/
def addVec (a b : Vec) : Vec := List.zipWith (fun x y => x + y) a b

/-- Elementwise sum of two 3-d tensors (`residual + hidden_states`). -/
def addT3 (a b : T3) : T3 := List.zipWith (fun r s => List.zipWith addVec r s) a b

/-- Elementwise product with a scalar (`hidden_states * multiplier`). -/
def scaleT3 (c : ℚ) (x : T3) : T3 :=
  x.map (fun rows => rows.map (fun v => v.map (fun a => a * c)))

/-- Modelled from the spec: the host framework's DynamicCache (from
cache_utils, not part of this fragment) holds per-layer accumulated key
and value tensors. -/
structure DynCache where
  key_cache : List T3
  value_cache : List T3

/-- torch.cat along dim=-2 for 3-d tensors: concatenate the sequences of
each batch element. -/
def catSeq (a b : T3) : T3 := List.zipWith (fun x y => x ++ y) a b

/-- Modelled from the spec: `DynamicCache.update` appends the new key and
value states to the cache entry keyed by `layer_idx` (creating the entry
on first use) and returns the accumulated key/value tensors together with
the updated cache. -/
def DynCache.update (c : DynCache) (key value : T3) (layer_idx : Nat) :
    (T3 × T3) × DynCache :=
  if layer_idx < c.key_cache.length then
    let nk := catSeq (c.key_cache.getD layer_idx []) key
    let nv := catSeq (c.value_cache.getD layer_idx []) value
    ((nk, nv), ⟨c.key_cache.set layer_idx nk, c.value_cache.set layer_idx nv⟩)
  else
    ((key, value), ⟨c.key_cache ++ [key], c.value_cache ++ [value]⟩)

/-- Weights of the five bias-free linear sub-modules built in
GraniteMultiHeadLatentAttention.__init__ (lines 55-65). -/
structure MLAWeights where
  c_attn_down_projection : Matrix
  query_up_projection : Matrix
  key_up_projection : Matrix
  value_up_projection : Matrix
  c_proj : Matrix

/-- A matrix has the given number of rows (out-features) and columns
(in-features). -/
def matHasDims (m : Matrix) (rows cols : Nat) : Bool :=
  m.length == rows && m.all (fun r => r.length == cols)

/-- The weight shapes produced by the nn.Linear constructions of
GraniteMultiHeadLatentAttention.__init__:
down projection (hidden -> q + 2 kv), the three up projections
(q -> hidden, kv -> hidden, kv -> hidden) and c_proj (hidden -> hidden). -/
def MLAWeights.wf (w : MLAWeights) (cfg : Config) : Bool :=
  matHasDims w.c_attn_down_projection
      (cfg.mla_query_comp_size + 2 * cfg.mla_key_value_comp_size) cfg.hidden_size
    && matHasDims w.query_up_projection cfg.hidden_size cfg.mla_query_comp_size
    && matHasDims w.key_up_projection cfg.hidden_size cfg.mla_key_value_comp_size
    && matHasDims w.value_up_projection cfg.hidden_size cfg.mla_key_value_comp_size
    && matHasDims w.c_proj cfg.hidden_size cfg.hidden_size

/-- Module state set up by GraniteMultiHeadLatentAttention.__init__
(lines 40-69). -/
structure MLAModule where
  causal : Bool
  hidden_size : Nat
  num_heads : Nat
  query_compression_size : Nat
  key_value_compression_size : Nat
  head_dim : Nat
  attention_multiplier : Option ℚ
  layer_idx : Nat
  weights : MLAWeights
  softmax_dropout_p : ℚ
  mla_dropout_p : ℚ

/-- GraniteMultiHeadLatentAttention.__init__: field-by-field translation
of lines 40-69 (`head_dim` is integer division, line 48; `causal` is set
to True, line 40). -/
def mkMLA (cfg : Config) (layer_idx : Nat) (w : MLAWeights) : MLAModule :=
  { causal := true
    hidden_size := cfg.hidden_size
    num_heads := cfg.num_attention_heads
    query_compression_size := cfg.mla_query_comp_size
    key_value_compression_size := cfg.mla_key_value_comp_size
    head_dim := cfg.hidden_size / cfg.num_attention_heads
    attention_multiplier := cfg.attention_multiplier
    layer_idx := layer_idx
    weights := w
    softmax_dropout_p := cfg.mla_softmax_dropout
    mla_dropout_p := cfg.mla_dropout }

/-- GraniteMultiHeadLatentAttention._get_softmax_scale (lines 119-125). -/
def getSoftmaxScale (m : MLAModule) : Option ℚ :=
  match m.attention_multiplier with
  | none => none
  | some x => some x

/-- The arguments the forward pass hands to
F.scaled_dot_product_attention (lines 97-105), besides query/key/value. -/
structure SdpaArgs where
  attn_mask : Option T4
  dropout_p : ℚ
  is_causal : Bool
  scale : Option ℚ

/-- The keyword arguments built at the F.scaled_dot_product_attention call
site (lines 101-104): the explicit mask, `dropout_p` active in training
only, `is_causal` set to `self.causal` exactly when no mask is given, and
the scale from `_get_softmax_scale`. -/
def mlaSdpaArgs (m : MLAModule) (training : Bool) (attention_mask : Option T4) :
    SdpaArgs :=
  { attn_mask := attention_mask
    dropout_p := if training then m.softmax_dropout_p else 0
    is_causal := if attention_mask.isNone then m.causal else false
    scale := getSoftmaxScale m }

/-- The host framework's attention kernel, kept abstract: it receives the
call-site arguments, per-head query/key/value and a random source for its
internal dropout. -/
abbrev SdpaFn := SdpaArgs → T4 → T4 → T4 → NoiseFn → T4

/-- Row-major `view(batch, len, num_heads, -1)` restricted to one feature
vector: cut it into `num_heads` consecutive pieces of the inferred size. -/
def splitIntoHeads (numHeads : Nat) (v : Vec) : List Vec :=
  let d := v.length / numHeads
  (List.range numHeads).map (fun i => (v.drop (i * d)).take d)

/-- Lines 93-95: `view(batch, len, num_heads, -1).transpose(1, 2)`. -/
def toHeads (numHeads : Nat) (x : T3) : T4 :=
  x.map (fun rows => (rows.map (splitIntoHeads numHeads)).transpose)

/-- Lines 110-111: `transpose(1, 2)` followed by
`reshape(batch, -1, num_heads * head_dim)` — flatten each batch element
row-major and regroup into rows of width `num_heads * head_dim`. -/
def mergeHeads (numHeads headDim : Nat) (x : T4) : T3 :=
  x.map (fun perBatch =>
    let flat := ((perBatch.transpose).map List.flatten).flatten
    let rowLen := numHeads * headDim
    (List.range (flat.length / rowLen)).map
      (fun i => (flat.drop (i * rowLen)).take rowLen))

/-- Training-mode inverted dropout with an explicit random keep mask:
kept entries are rescaled by 1/(1-p), dropped entries become 0. -/
def dropoutT3 (p : ℚ) (keep : NoiseFn) (x : T3) : T3 :=
  (List.zipWith (fun bi rows =>
    (List.zipWith (fun si v =>
      (List.zipWith (fun fi a => if keep bi si fi then a / (1 - p) else 0)
        (List.range v.length) v))
      (List.range rows.length) rows))
    (List.range x.length) x)

/-- Modelled from the spec: the dropout sub-module of line 69 —
nn.Identity when the configured probability is 0, otherwise nn.Dropout,
which applies a random mask during training and is the identity in
evaluation mode. -/
def dropoutModule (p : ℚ) (training : Bool) (keep : NoiseFn) (x : T3) : T3 :=
  if p = 0 then x else if training then dropoutT3 p keep x else x

/-- All intermediate values of one GraniteMultiHeadLatentAttention.forward
call (lines 76-116), named in source order. -/
structure MLATrace where
  downProjected : T3
  queryLatent : T3
  keyLatent : T3
  valueLatent : T3
  keyCached : T3
  valueCached : T3
  queryUp : T3
  keyUp : T3
  valueUp : T3
  sdpaArgsUsed : SdpaArgs
  attnContext : T4
  output : T3
  updatedCache : Option DynCache

/-- GraniteMultiHeadLatentAttention.forward (lines 76-116), with every
intermediate value recorded. The `split` of lines 79-81 takes consecutive
slices of sizes (query_compression_size, key_value_compression_size,
key_value_compression_size) along the last dimension; lines 82-83 route
the key/value latents through the cache keyed by `self.layer_idx`; the
per-head views of lines 90-95 and the merge of lines 109-111 are as
above. -/
def mlaForwardTrace (m : MLAModule) (sdpa : SdpaFn) (training : Bool)
    (sdpaNoise dropNoise : NoiseFn) (hidden_states : T3)
    (past_key_values : Option DynCache) (attention_mask : Option T4) :
    MLATrace :=
  let a := m.query_compression_size
  let b := m.key_value_compression_size
  let hs := linearNoBias m.weights.c_attn_down_projection hidden_states
  let query := mapVec (fun v => v.take a) hs
  let key := mapVec (fun v => (v.drop a).take b) hs
  let value := mapVec (fun v => (v.drop (a + b)).take b) hs
  let cacheStep := match past_key_values with
    | some c => some (DynCache.update c key value m.layer_idx)
    | none => none
  let key2 := match cacheStep with
    | some r => r.1.1
    | none => key
  let value2 := match cacheStep with
    | some r => r.1.2
    | none => value
  let queryUp := linearNoBias m.weights.query_up_projection query
  let keyUp := linearNoBias m.weights.key_up_projection key2
  let valueUp := linearNoBias m.weights.value_up_projection value2
  let query4 := toHeads m.num_heads queryUp
  let key4 := toHeads m.num_heads keyUp
  let value4 := toHeads m.num_heads valueUp
  let args := mlaSdpaArgs m training attention_mask
  let ctx := sdpa args query4 key4 value4 sdpaNoise
  let merged := mergeHeads m.num_heads m.head_dim ctx
  let out := dropoutModule m.mla_dropout_p training dropNoise
    (linearNoBias m.weights.c_proj merged)
  { downProjected := hs
    queryLatent := query
    keyLatent := key
    valueLatent := value
    keyCached := key2
    valueCached := value2
    queryUp := queryUp
    keyUp := keyUp
    valueUp := valueUp
    sdpaArgsUsed := args
    attnContext := ctx
    output := out
    updatedCache := cacheStep.map (fun r => r.2) }

/-- The tensor GraniteMultiHeadLatentAttention.forward returns (line 116). -/
def mlaForward (m : MLAModule) (sdpa : SdpaFn) (training : Bool)
    (sdpaNoise dropNoise : NoiseFn) (hidden_states : T3)
    (past_key_values : Option DynCache) (attention_mask : Option T4) : T3 :=
  (mlaForwardTrace m sdpa training sdpaNoise dropNoise hidden_states
    past_key_values attention_mask).output

/-- Line 142 of GraniteMoeHybridDecoderLayer.__init__:
`self.shared_mlp = None if config.shared_intermediate_size == 0 else
GraniteMoeSharedMLP(config)`. The shared MLP itself lives in the
granitemoeshared model family (outside this fragment) and is abstracted
as a function. -/
def mkSharedMlp (cfg : Config) (mlp : T3 → T3) : Option (T3 → T3) :=
  if cfg.shared_intermediate_size = 0 then none else some mlp

/-- The feed-forward stage of GraniteMoeHybridDecoderLayer.forward (lines
209-216): run the MoE block (which also returns router logits), then add
the shared-MLP branch exactly when a shared MLP was constructed. -/
def ffStage (block_sparse_moe : T3 → T3 × T3) (shared_mlp : Option (T3 → T3))
    (hidden_states : T3) : T3 :=
  let moeStep := block_sparse_moe hidden_states
  match shared_mlp with
  | none => moeStep.1
  | some f => addT3 moeStep.1 (f hidden_states)

/-- The hidden-state dataflow of GraniteMoeHybridDecoderLayer.forward
(lines 184-218), with every intermediate value recorded. The two layer
norms, the sequence mixer and the MoE block are sub-modules defined
outside this fragment and are abstracted as functions (the Python call
convention of the mixer call is checked separately below); the assembly
of the optional trailing tuple elements (lines 220-229) carries no
hidden-state computation and is omitted. -/
structure DecoderTrace where
  preMixerResidual : T3
  normedInput : T3
  mixerOutput : T3
  afterMixer : T3
  preFfResidual : T3
  postAttnNormed : T3
  ffOutput : T3
  output : T3

/-- GraniteMoeHybridDecoderLayer.forward, lines 184-218: save the
residual, normalize, run the mixer, add the mixer output scaled by
`residual_multiplier`, save the new residual, normalize, run the
feed-forward stage and add it scaled by `residual_multiplier`. -/
def decoderForwardTrace (input_layernorm post_attention_layernorm : T3 → T3)
    (mixer : T3 → T3) (block_sparse_moe : T3 → T3 × T3)
    (shared_mlp : Option (T3 → T3)) (residual_multiplier : ℚ)
    (hidden_states : T3) : DecoderTrace :=
  let residual := hidden_states
  let h1 := input_layernorm hidden_states
  let mixed := mixer h1
  let h2 := addT3 residual (scaleT3 residual_multiplier mixed)
  let residual2 := h2
  let h3 := post_attention_layernorm h2
  let ff := ffStage block_sparse_moe shared_mlp h3
  let h4 := addT3 residual2 (scaleT3 residual_multiplier ff)
  { preMixerResidual := residual
    normedInput := h1
    mixerOutput := mixed
    afterMixer := h2
    preFfResidual := residual2
    postAttnNormed := h3
    ffOutput := ff
    output := h4 }

/-- The mixer sub-module chosen at line 144. -/
inductive MixerChoice where
  | mla
  | mamba
deriving DecidableEq

/-- Line 144 of GraniteMoeHybridDecoderLayer.__init__: the attention
mixer is constructed exactly when the layer's configured type label
equals "multihead_latent_attention"; every other label, valid or not,
falls to the else branch and constructs the recurrent (Mamba) mixer.
Out-of-range layer indices are read as the empty label. -/
def selectMixer (cfg : Config) (layer_idx : Nat) : MixerChoice :=
  if cfg.layer_types.getD layer_idx "" = "multihead_latent_attention" then
    MixerChoice.mla
  else
    MixerChoice.mamba

/-- Modelled from the spec: the two documented mixer kinds are the
latent-attention variant and the recurrent (Mamba) variant. -/
def validMixerLabels : List String := ["multihead_latent_attention", "mamba"]

/-- The keyword parameters accepted by
GraniteMultiHeadLatentAttention.forward (lines 71-74). The signature has
no variadic keyword parameter. -/
def mlaForwardKeywordParams : List String :=
  ["hidden_states", "past_key_values", "attention_mask"]

/-- GraniteMultiHeadLatentAttention.forward has no catch-all keyword
parameter in its signature (lines 71-74). -/
def mlaForwardHasVarKeywords : Bool := false

/-- The keyword arguments the decoder layer passes to `self.self_attn`
(lines 189-198), in source order. -/
def decoderMixerCallKwargs : List String :=
  ["hidden_states", "attention_mask", "position_ids", "past_key_value",
   "output_attentions", "use_cache", "cache_position", "position_embeddings"]

/-- Line 189 unpacks the mixer's result into three targets. -/
def decoderMixerUnpackArity : Nat := 3

/-- GraniteMultiHeadLatentAttention.forward returns a single tensor
(line 116), not a tuple. -/
def mlaForwardResultArity : Nat := 1

/-- Python keyword binding: a call binds only if every passed keyword
matches a declared parameter, unless the callee takes variadic keyword
arguments; otherwise the call raises TypeError. -/
def callKeywordsBind (params : List String) (hasVarKw : Bool)
    (passed : List String) : Bool :=
  hasVarKw || passed.all (fun k => params.contains k)

/-- Inferring the `-1` dimension of torch view/reshape: the product of
the known dimensions must be nonzero and divide the element count. -/
def inferDim (numel known : Nat) : Option Nat :=
  if known ≠ 0 ∧ known ∣ numel then some (numel / known) else none

/-- Shape-level semantics of GraniteMultiHeadLatentAttention.forward on a
(batch, sequence, width) input, tracking the shape checks torch performs.
The split of lines 79-81 always matches the down-projection width
(q + 2 kv) and the up-projection in-features always match the latent
widths, so those steps cannot fail; the attention mask is omitted here
because it never influences output shapes. `cachedLen` is the sequence
length already stored in the cache for this layer when `useCache` is
set. The scaled-dot-product attention shape rule (query and key head
widths must agree; output takes the value head width) is modelled from
the host framework's documentation. -/
def mlaForwardShape (cfg : Config) (s : Nat × Nat × Nat) (cachedLen : Nat)
    (useCache : Bool) : Option (Nat × Nat × Nat) :=
  let b := s.1
  let qlen := s.2.1
  let d := s.2.2
  if d ≠ cfg.hidden_size then none else
  let klen := if useCache then cachedLen + qlen else qlen
  match inferDim (b * qlen * cfg.hidden_size) (b * qlen * cfg.num_attention_heads) with
  | none => none
  | some dq =>
  match inferDim (b * klen * cfg.hidden_size) (b * klen * cfg.num_attention_heads) with
  | none => none
  | some dk =>
  if dq ≠ dk then none else
  let dv := dk
  let head_dim := cfg.hidden_size / cfg.num_attention_heads
  match inferDim (b * qlen * cfg.num_attention_heads * dv)
      (b * (cfg.num_attention_heads * head_dim)) with
  | none => none
  | some mid =>
  if cfg.num_attention_heads * head_dim ≠ cfg.hidden_size then none else
  some (b, mid, cfg.hidden_size)

/-- Every feature vector of the tensor has length `d`. -/
def t3WidthAll (x : T3) (d : Nat) : Bool :=
  x.all (fun rows => rows.all (fun v => v.length == d))

/-- A small concrete configuration used to instantiate theorems. -/
def baseCfg : Config :=
  { hidden_size := 4
    num_attention_heads := 2
    mla_query_comp_size := 2
    mla_key_value_comp_size := 1
    attention_multiplier := none
    mla_softmax_dropout := 0
    mla_dropout := 0
    shared_intermediate_size := 0
    layer_types := ["multihead_latent_attention"]
    residual_multiplier := 1/2
    num_hidden_layers := 1 }

/-- Concrete configuration whose single layer is an attention layer. -/
def c1cfg : Config := baseCfg

/-- Concrete configuration for the decoder forward-shape claim. -/
def c2cfg : Config := { baseCfg with hidden_size := 4, num_attention_heads := 2 }

/-- Concrete configuration carrying an invalid mixer-type label. -/
def badLabelCfg : Config := { baseCfg with layer_types := ["rope"] }

/-- Concrete configuration with no shared MLP. -/
def c4cfg0 : Config := { baseCfg with shared_intermediate_size := 0 }

/-- Concrete configuration with a shared MLP. -/
def c4cfg1 : Config := { baseCfg with shared_intermediate_size := 3 }

/-- Identity on 3-d tensors, standing in for a concrete shared MLP. -/
def idT3 : T3 → T3 := fun x => x

/-- A concrete MoE block: routed output is the input, logits echo it. -/
def c4moe : T3 → T3 × T3 := fun x => (x, x)

/-- A concrete hidden-state tensor (batch 1, sequence 1, width 2). -/
def c4h : T3 := [[[1, 2]]]

/-- Tiny concrete attention configuration: hidden 2, one head, latent
sizes 1/1. -/
def cfg5 : Config :=
  { baseCfg with
    hidden_size := 2
    num_attention_heads := 1
    mla_query_comp_size := 1
    mla_key_value_comp_size := 1 }

/-- Concrete weights matching `cfg5`. -/
def w5 : MLAWeights :=
  { c_attn_down_projection := [[1, 0], [0, 1], [1, 1]]
    query_up_projection := [[1], [2]]
    key_up_projection := [[1], [0]]
    value_up_projection := [[0], [1]]
    c_proj := [[1, 0], [0, 1]] }

/-- Concrete input for `cfg5` (batch 1, sequence 1, width 2). -/
def h5 : T3 := [[[1, 2]]]

/-- Concrete one-layer cache holding one cached position. -/
def cache5 : DynCache := ⟨[[[[5]]]], [[[[6]]]]⟩

/-- A concrete attention kernel that returns its query unchanged and
ignores its random source (hence deterministic at any dropout). -/
def sdpaQ : SdpaFn := fun _ q _ _ _ => q

/-- Constant-true keep mask. -/
def noiseT : NoiseFn := fun _ _ _ => true

/-- Constant-false keep mask. -/
def noiseF : NoiseFn := fun _ _ _ => false

/-- Concrete configuration with head count dividing the hidden size. -/
def c10cfg : Config := { baseCfg with hidden_size := 4, num_attention_heads := 2 }

/-- C1: whenever a decoder layer's configured mixer type selects the
latent-attention module, the keyword arguments the decoder layer's
forward passes to `self.self_attn` (position_ids, past_key_value,
output_attentions, use_cache, cache_position, position_embeddings among
them) cannot bind against GraniteMultiHeadLatentAttention.forward, which
accepts only hidden_states, past_key_values and attention_mask; moreover
the call site unpacks three values while that forward returns a single
tensor — so the mixer call raises for every input. -/
theorem mla_mixer_call_cannot_bind (cfg : Config) (i : Nat)
    (_hm : selectMixer cfg i = MixerChoice.mla) :
    callKeywordsBind mlaForwardKeywordParams mlaForwardHasVarKeywords
        decoderMixerCallKwargs = false
    ∧ decoderMixerCallKwargs.contains "position_ids" = true
    ∧ mlaForwardKeywordParams.contains "position_ids" = false
    ∧ decoderMixerUnpackArity ≠ mlaForwardResultArity := by
  exact ⟨by decide, by decide, by decide, by decide⟩

/-- Witness for C1 at a concrete configuration whose layer 0 is a
latent-attention layer. -/
theorem mla_mixer_call_cannot_bind_inst :
    selectMixer c1cfg 0 = MixerChoice.mla
    ∧ (callKeywordsBind mlaForwardKeywordParams mlaForwardHasVarKeywords
          decoderMixerCallKwargs = false
      ∧ decoderMixerCallKwargs.contains "position_ids" = true
      ∧ mlaForwardKeywordParams.contains "position_ids" = false
      ∧ decoderMixerUnpackArity ≠ mlaForwardResultArity) :=
  ⟨by decide, mla_mixer_call_cannot_bind c1cfg 0 (by decide)⟩

/-- C2 (failing input): on a concrete configuration whose layer 0 mixer
is the latent-attention variant, the decoder layer's forward cannot bind
its mixer call, so no output tensor of any shape is produced; the claimed
(batch, sequence, hidden) output shape is the documented intent. -/
theorem decoder_attention_layer_call_fails_concrete :
    selectMixer c2cfg 0 = MixerChoice.mla
    ∧ callKeywordsBind mlaForwardKeywordParams mlaForwardHasVarKeywords
        decoderMixerCallKwargs = false := by
  decide

/-- C3: the forward pass hands scaled-dot-product attention exactly the
given attention mask, and sets is_causal to True precisely when the mask
is absent (so an explicit mask comes with is_causal False and no implicit
causal masking). -/
theorem sdpa_mask_causality (cfg : Config) (lidx : Nat) (w : MLAWeights)
    (sdpa : SdpaFn) (training : Bool) (n k : NoiseFn) (h : T3)
    (past : Option DynCache) (mask : Option T4) :
    (mlaForwardTrace (mkMLA cfg lidx w) sdpa training n k h past mask).sdpaArgsUsed.attn_mask
        = mask
    ∧ (mlaForwardTrace (mkMLA cfg lidx w) sdpa training n k h past mask).sdpaArgsUsed.is_causal
        = mask.isNone := by
  cases mask <;> exact ⟨rfl, rfl⟩

/-- C6: the scale handed to scaled-dot-product attention is exactly the
configured attention multiplier — the multiplier itself when present,
None (torch's default inverse-square-root head-dimension scale) when
absent. -/
theorem sdpa_scale_from_multiplier (cfg : Config) (lidx : Nat) (w : MLAWeights)
    (sdpa : SdpaFn) (training : Bool) (n k : NoiseFn) (h : T3)
    (past : Option DynCache) (mask : Option T4) :
    (mlaForwardTrace (mkMLA cfg lidx w) sdpa training n k h past mask).sdpaArgsUsed.scale
      = cfg.attention_multiplier := by
  cases hcm : cfg.attention_multiplier <;>
    simp [mlaForwardTrace, mlaSdpaArgs, getSoftmaxScale, mkMLA, hcm]

/-- C7: in the decoder layer's forward, the mixer output is scaled by the
residual multiplier and added to the hidden state saved before the
pre-mixer layer norm, and the feed-forward stage output is scaled by the
same multiplier and added to the hidden state saved before the
pre-feed-forward layer norm. -/
theorem decoder_residual_pattern (inorm pnorm mixer : T3 → T3)
    (moe : T3 → T3 × T3) (shared : Option (T3 → T3)) (rm : ℚ) (h : T3) :
    (decoderForwardTrace inorm pnorm mixer moe shared rm h).preMixerResidual = h
    ∧ (decoderForwardTrace inorm pnorm mixer moe shared rm h).mixerOutput = mixer (inorm h)
    ∧ (decoderForwardTrace inorm pnorm mixer moe shared rm h).afterMixer
        = addT3 (decoderForwardTrace inorm pnorm mixer moe shared rm h).preMixerResidual
            (scaleT3 rm (decoderForwardTrace inorm pnorm mixer moe shared rm h).mixerOutput)
    ∧ (decoderForwardTrace inorm pnorm mixer moe shared rm h).preFfResidual
        = (decoderForwardTrace inorm pnorm mixer moe shared rm h).afterMixer
    ∧ (decoderForwardTrace inorm pnorm mixer moe shared rm h).ffOutput
        = ffStage moe shared
            (pnorm (decoderForwardTrace inorm pnorm mixer moe shared rm h).afterMixer)
    ∧ (decoderForwardTrace inorm pnorm mixer moe shared rm h).output
        = addT3 (decoderForwardTrace inorm pnorm mixer moe shared rm h).preFfResidual
            (scaleT3 rm (decoderForwardTrace inorm pnorm mixer moe shared rm h).ffOutput) :=
  ⟨rfl, rfl, rfl, rfl, rfl, rfl⟩

/-- C4: with shared_intermediate_size 0 the decoder layer constructs no
shared MLP and its feed-forward stage output is exactly the MoE output;
otherwise the stage output is the MoE output plus the shared MLP applied
to the post-norm hidden states. -/
theorem shared_mlp_optional_sum (cfg : Config) (mlp : T3 → T3)
    (moe : T3 → T3 × T3) (h : T3) :
    (cfg.shared_intermediate_size = 0 →
      mkSharedMlp cfg mlp = none
      ∧ ffStage moe (mkSharedMlp cfg mlp) h = (moe h).1)
    ∧ (cfg.shared_intermediate_size ≠ 0 →
      mkSharedMlp cfg mlp = some mlp
      ∧ ffStage moe (mkSharedMlp cfg mlp) h = addT3 (moe h).1 (mlp h)) := by
  constructor
  · intro h0
    simp [mkSharedMlp, ffStage, h0]
  · intro h0
    simp [mkSharedMlp, ffStage, h0]

/-- Witness for C4 at concrete configurations with and without a shared
MLP. -/
theorem shared_mlp_optional_sum_inst :
    mkSharedMlp c4cfg0 idT3 = none
    ∧ ffStage c4moe (mkSharedMlp c4cfg0 idT3) c4h = (c4moe c4h).1
    ∧ ffStage c4moe (mkSharedMlp c4cfg1 idT3) c4h
        = addT3 (c4moe c4h).1 (idT3 c4h) := by
  refine ⟨?_, ?_, ?_⟩
  · exact ((shared_mlp_optional_sum c4cfg0 idT3 c4moe c4h).1 rfl).1
  · exact ((shared_mlp_optional_sum c4cfg0 idT3 c4moe c4h).1 rfl).2
  · exact ((shared_mlp_optional_sum c4cfg1 idT3 c4moe c4h).2 (by decide)).2

/-- C8 (counterexample): an invalid mixer-type label does not make
construction fail — the dispatch of GraniteMoeHybridDecoderLayer.__init__
silently selects the recurrent (Mamba) branch for any label other than
"multihead_latent_attention". -/
theorem invalid_label_selects_mamba :
    validMixerLabels.contains "rope" = false
    ∧ selectMixer badLabelCfg 0 = MixerChoice.mamba := by
  decide

/-- C8 (amended): for every configuration and layer index whose label is
not "multihead_latent_attention" — whether the valid recurrent label or
an invalid one — the dispatch raises no error and constructs the
recurrent (Mamba) mixer; no typed, documented error exists in the
dispatch. -/
theorem nonattention_label_selects_mamba (cfg : Config) (i : Nat)
    (hl : cfg.layer_types.getD i "" ≠ "multihead_latent_attention") :
    selectMixer cfg i = MixerChoice.mamba := by
  unfold selectMixer
  rw [if_neg hl]

/-- Witness for the amended C8 at the concrete invalid label. -/
theorem nonattention_label_selects_mamba_inst :
    selectMixer badLabelCfg 0 = MixerChoice.mamba :=
  nonattention_label_selects_mamba badLabelCfg 0 (by decide)

/-- In evaluation mode the dropout sub-module is the identity, whatever
the keep mask. -/
theorem dropoutModule_eval (p : ℚ) (keep : NoiseFn) (x : T3) :
    dropoutModule p false keep x = x := by
  unfold dropoutModule
  split_ifs with h1 h2
  · rfl
  · exact h2.elim
  · rfl

/-- The dropout probability handed to the attention kernel is 0 outside
training. -/
theorem mlaSdpaArgs_eval_dropout (m : MLAModule) (mask : Option T4) :
    (mlaSdpaArgs m false mask).dropout_p = 0 := rfl

/-- C9: in evaluation mode, two runs of the attention forward on the same
input, cache state and mask produce identical outputs, whatever the
random sources of the two runs, provided the host attention kernel is
deterministic at dropout probability 0. -/
theorem mla_eval_determinism (cfg : Config) (lidx : Nat) (w : MLAWeights)
    (sdpa : SdpaFn) (n1 k1 n2 k2 : NoiseFn) (h : T3)
    (past : Option DynCache) (mask : Option T4)
    (hdet : ∀ a q kk v m1 m2, a.dropout_p = 0 → sdpa a q kk v m1 = sdpa a q kk v m2) :
    mlaForward (mkMLA cfg lidx w) sdpa false n1 k1 h past mask
      = mlaForward (mkMLA cfg lidx w) sdpa false n2 k2 h past mask := by
  unfold mlaForward mlaForwardTrace
  dsimp only
  rw [dropoutModule_eval, dropoutModule_eval]
  rw [hdet _ _ _ _ n1 n2 (mlaSdpaArgs_eval_dropout _ _)]

/-- Witness for C9: concrete weights, input and a concrete deterministic
kernel, with two different random sources. -/
theorem mla_eval_determinism_inst :
    mlaForward (mkMLA cfg5 0 w5) sdpaQ false noiseT noiseT h5 none none
      = mlaForward (mkMLA cfg5 0 w5) sdpaQ false noiseF noiseF h5 none none :=
  mla_eval_determinism cfg5 0 w5 sdpaQ noiseT noiseT noiseF noiseF h5 none none
    (fun _ _ _ _ _ _ _ => rfl)

/-- A bias-free linear layer always produces feature vectors whose length
is the weight row count (the out-features). -/
theorem t3WidthAll_linear (w : Matrix) (x : T3) :
    t3WidthAll (linearNoBias w x) w.length = true := by
  simp only [t3WidthAll, linearNoBias, List.all_eq_true, beq_iff_eq]
  intro r hr v hv
  simp only [List.mem_map] at hr
  obtain ⟨rows, hrows, rfl⟩ := hr
  simp only [List.mem_map] at hv
  obtain ⟨v0, hv0, rfl⟩ := hv
  simp [matVec]

/-- Mapping a width-changing function over every feature vector. -/
theorem t3WidthAll_mapVec (f : Vec → Vec) (dIn dOut : Nat) (x : T3)
    (hf : ∀ v : Vec, v.length = dIn → (f v).length = dOut)
    (hx : t3WidthAll x dIn = true) :
    t3WidthAll (mapVec f x) dOut = true := by
  simp only [t3WidthAll, mapVec, List.all_eq_true, beq_iff_eq] at *
  intro r hr v hv
  simp only [List.mem_map] at hr
  obtain ⟨rows, hrows, rfl⟩ := hr
  simp only [List.mem_map] at hv
  obtain ⟨v0, hv0, rfl⟩ := hv
  exact hf v0 (hx rows hrows v0 hv0)

/-- The down-projection intermediate recorded by the forward trace. -/
theorem trace_downProjected (m : MLAModule) (sdpa : SdpaFn) (training : Bool)
    (n k : NoiseFn) (h : T3) (past : Option DynCache) (mask : Option T4) :
    (mlaForwardTrace m sdpa training n k h past mask).downProjected
      = linearNoBias m.weights.c_attn_down_projection h := rfl

/-- The query latent is the first split slice of the down projection. -/
theorem trace_queryLatent (m : MLAModule) (sdpa : SdpaFn) (training : Bool)
    (n k : NoiseFn) (h : T3) (past : Option DynCache) (mask : Option T4) :
    (mlaForwardTrace m sdpa training n k h past mask).queryLatent
      = mapVec (fun v => v.take m.query_compression_size)
          (linearNoBias m.weights.c_attn_down_projection h) := rfl

/-- The key latent is the second split slice of the down projection. -/
theorem trace_keyLatent (m : MLAModule) (sdpa : SdpaFn) (training : Bool)
    (n k : NoiseFn) (h : T3) (past : Option DynCache) (mask : Option T4) :
    (mlaForwardTrace m sdpa training n k h past mask).keyLatent
      = mapVec (fun v => (v.drop m.query_compression_size).take
            m.key_value_compression_size)
          (linearNoBias m.weights.c_attn_down_projection h) := rfl

/-- The value latent is the third split slice of the down projection. -/
theorem trace_valueLatent (m : MLAModule) (sdpa : SdpaFn) (training : Bool)
    (n k : NoiseFn) (h : T3) (past : Option DynCache) (mask : Option T4) :
    (mlaForwardTrace m sdpa training n k h past mask).valueLatent
      = mapVec (fun v =>
            (v.drop (m.query_compression_size + m.key_value_compression_size)).take
              m.key_value_compression_size)
          (linearNoBias m.weights.c_attn_down_projection h) := rfl

/-- With a cache supplied, the key fed to the up-projection is the result
of the cache update keyed by the module's layer index. -/
theorem trace_keyCached_some (m : MLAModule) (sdpa : SdpaFn) (training : Bool)
    (n k : NoiseFn) (h : T3) (c : DynCache) (mask : Option T4) :
    (mlaForwardTrace m sdpa training n k h (some c) mask).keyCached
      = (DynCache.update c
          (mlaForwardTrace m sdpa training n k h (some c) mask).keyLatent
          (mlaForwardTrace m sdpa training n k h (some c) mask).valueLatent
          m.layer_idx).1.1 := rfl

/-- With a cache supplied, the value fed to the up-projection is the
result of the cache update keyed by the module's layer index. -/
theorem trace_valueCached_some (m : MLAModule) (sdpa : SdpaFn) (training : Bool)
    (n k : NoiseFn) (h : T3) (c : DynCache) (mask : Option T4) :
    (mlaForwardTrace m sdpa training n k h (some c) mask).valueCached
      = (DynCache.update c
          (mlaForwardTrace m sdpa training n k h (some c) mask).keyLatent
          (mlaForwardTrace m sdpa training n k h (some c) mask).valueLatent
          m.layer_idx).1.2 := rfl

/-- The up-projections act on the query latent and the (possibly cached)
key and value. -/
theorem trace_upProjections (m : MLAModule) (sdpa : SdpaFn) (training : Bool)
    (n k : NoiseFn) (h : T3) (past : Option DynCache) (mask : Option T4) :
    (mlaForwardTrace m sdpa training n k h past mask).queryUp
        = linearNoBias m.weights.query_up_projection
            (mlaForwardTrace m sdpa training n k h past mask).queryLatent
    ∧ (mlaForwardTrace m sdpa training n k h past mask).keyUp
        = linearNoBias m.weights.key_up_projection
            (mlaForwardTrace m sdpa training n k h past mask).keyCached
    ∧ (mlaForwardTrace m sdpa training n k h past mask).valueUp
        = linearNoBias m.weights.value_up_projection
            (mlaForwardTrace m sdpa training n k h past mask).valueCached := by
  cases past <;> exact ⟨rfl, rfl, rfl⟩

/-- An existing cache entry is extended by appending the new states along
the sequence dimension. -/
theorem DynCache.update_get (c : DynCache) (k v : T3) (i : Nat)
    (hi : i < c.key_cache.length) :
    (c.update k v i).1.1 = catSeq (c.key_cache.getD i []) k
    ∧ (c.update k v i).1.2 = catSeq (c.value_cache.getD i []) v := by
  unfold DynCache.update
  rw [if_pos hi]
  exact ⟨rfl, rfl⟩

/-- C5: the forward pass first down-projects the input to a concatenated
latent of width query_compression_size + 2 * key_value_compression_size,
splits it into query/key/value latents of the configured compression
sizes, routes the key and value latents through the cache (when one is
supplied) keyed by the layer index — appending to the stored entry —
before any up-projection, and up-projects each latent to the full hidden
width. -/
theorem mla_latent_pipeline (cfg : Config) (lidx : Nat) (w : MLAWeights)
    (sdpa : SdpaFn) (training : Bool) (n k : NoiseFn) (h : T3)
    (past : Option DynCache) (mask : Option T4)
    (hw : MLAWeights.wf w cfg = true) :
    t3WidthAll (mlaForwardTrace (mkMLA cfg lidx w) sdpa training n k h past mask).downProjected
        (cfg.mla_query_comp_size + 2 * cfg.mla_key_value_comp_size) = true
    ∧ t3WidthAll (mlaForwardTrace (mkMLA cfg lidx w) sdpa training n k h past mask).queryLatent
        cfg.mla_query_comp_size = true
    ∧ t3WidthAll (mlaForwardTrace (mkMLA cfg lidx w) sdpa training n k h past mask).keyLatent
        cfg.mla_key_value_comp_size = true
    ∧ t3WidthAll (mlaForwardTrace (mkMLA cfg lidx w) sdpa training n k h past mask).valueLatent
        cfg.mla_key_value_comp_size = true
    ∧ (∀ c, past = some c →
        (mlaForwardTrace (mkMLA cfg lidx w) sdpa training n k h past mask).keyCached
            = (DynCache.update c
                (mlaForwardTrace (mkMLA cfg lidx w) sdpa training n k h past mask).keyLatent
                (mlaForwardTrace (mkMLA cfg lidx w) sdpa training n k h past mask).valueLatent
                lidx).1.1
        ∧ (mlaForwardTrace (mkMLA cfg lidx w) sdpa training n k h past mask).valueCached
            = (DynCache.update c
                (mlaForwardTrace (mkMLA cfg lidx w) sdpa training n k h past mask).keyLatent
                (mlaForwardTrace (mkMLA cfg lidx w) sdpa training n k h past mask).valueLatent
                lidx).1.2
        ∧ (lidx < c.key_cache.length →
            (mlaForwardTrace (mkMLA cfg lidx w) sdpa training n k h past mask).keyCached
                = catSeq (c.key_cache.getD lidx [])
                    (mlaForwardTrace (mkMLA cfg lidx w) sdpa training n k h past mask).keyLatent
            ∧ (mlaForwardTrace (mkMLA cfg lidx w) sdpa training n k h past mask).valueCached
                = catSeq (c.value_cache.getD lidx [])
                    (mlaForwardTrace (mkMLA cfg lidx w) sdpa training n k h past mask).valueLatent))
    ∧ (past = none →
        (mlaForwardTrace (mkMLA cfg lidx w) sdpa training n k h past mask).keyCached
            = (mlaForwardTrace (mkMLA cfg lidx w) sdpa training n k h past mask).keyLatent
        ∧ (mlaForwardTrace (mkMLA cfg lidx w) sdpa training n k h past mask).valueCached
            = (mlaForwardTrace (mkMLA cfg lidx w) sdpa training n k h past mask).valueLatent)
    ∧ t3WidthAll (mlaForwardTrace (mkMLA cfg lidx w) sdpa training n k h past mask).queryUp
        cfg.hidden_size = true
    ∧ t3WidthAll (mlaForwardTrace (mkMLA cfg lidx w) sdpa training n k h past mask).keyUp
        cfg.hidden_size = true
    ∧ t3WidthAll (mlaForwardTrace (mkMLA cfg lidx w) sdpa training n k h past mask).valueUp
        cfg.hidden_size = true := by
  have hwd := hw
  simp only [MLAWeights.wf, matHasDims, Bool.and_eq_true, beq_iff_eq,
    List.all_eq_true] at hwd
  obtain ⟨⟨⟨⟨⟨hdLen, hdCols⟩, ⟨hqLen, hqCols⟩⟩, ⟨hkLen, hkCols⟩⟩,
    ⟨hvLen, hvCols⟩⟩, ⟨hpLen, hpCols⟩⟩ := hwd
  have hdownE : t3WidthAll (linearNoBias w.c_attn_down_projection h)
      (cfg.mla_query_comp_size + 2 * cfg.mla_key_value_comp_size) = true := by
    have hl := t3WidthAll_linear w.c_attn_down_projection h
    rwa [hdLen] at hl
  refine ⟨?_, ?_, ?_, ?_, ?_, ?_, ?_, ?_, ?_⟩
  · rw [trace_downProjected]
    exact hdownE
  · rw [trace_queryLatent]
    exact t3WidthAll_mapVec _
      (cfg.mla_query_comp_size + 2 * cfg.mla_key_value_comp_size)
      cfg.mla_query_comp_size _
      (fun v hv => by simp only [mkMLA]; rw [List.length_take, hv]; omega) hdownE
  · rw [trace_keyLatent]
    exact t3WidthAll_mapVec _
      (cfg.mla_query_comp_size + 2 * cfg.mla_key_value_comp_size)
      cfg.mla_key_value_comp_size _
      (fun v hv => by
        simp only [mkMLA]
        rw [List.length_take, List.length_drop, hv]
        omega) hdownE
  · rw [trace_valueLatent]
    exact t3WidthAll_mapVec _
      (cfg.mla_query_comp_size + 2 * cfg.mla_key_value_comp_size)
      cfg.mla_key_value_comp_size _
      (fun v hv => by
        simp only [mkMLA]
        rw [List.length_take, List.length_drop, hv]
        omega) hdownE
  · intro c hc
    subst hc
    refine ⟨trace_keyCached_some _ _ _ _ _ _ _ _,
      trace_valueCached_some _ _ _ _ _ _ _ _, ?_⟩
    intro hlt
    constructor
    · rw [trace_keyCached_some]
      exact (DynCache.update_get c _ _ lidx hlt).1
    · rw [trace_valueCached_some]
      exact (DynCache.update_get c _ _ lidx hlt).2
  · intro hn
    subst hn
    exact ⟨rfl, rfl⟩
  · rw [(trace_upProjections _ _ _ _ _ _ _ _).1]
    have hl := t3WidthAll_linear w.query_up_projection
      (mlaForwardTrace (mkMLA cfg lidx w) sdpa training n k h past mask).queryLatent
    rwa [hqLen] at hl
  · rw [(trace_upProjections _ _ _ _ _ _ _ _).2.1]
    have hl := t3WidthAll_linear w.key_up_projection
      (mlaForwardTrace (mkMLA cfg lidx w) sdpa training n k h past mask).keyCached
    rwa [hkLen] at hl
  · rw [(trace_upProjections _ _ _ _ _ _ _ _).2.2]
    have hl := t3WidthAll_linear w.value_up_projection
      (mlaForwardTrace (mkMLA cfg lidx w) sdpa training n k h past mask).valueCached
    rwa [hvLen] at hl

/-- Witness for C5 at a concrete tiny configuration, with a one-entry
cache. -/
theorem mla_latent_pipeline_inst :
    t3WidthAll (mlaForwardTrace (mkMLA cfg5 0 w5) sdpaQ false noiseT noiseT h5 (some cache5) none).downProjected
        (cfg5.mla_query_comp_size + 2 * cfg5.mla_key_value_comp_size) = true
    ∧ t3WidthAll (mlaForwardTrace (mkMLA cfg5 0 w5) sdpaQ false noiseT noiseT h5 (some cache5) none).queryLatent
        cfg5.mla_query_comp_size = true
    ∧ (mlaForwardTrace (mkMLA cfg5 0 w5) sdpaQ false noiseT noiseT h5 (some cache5) none).keyCached
        = catSeq (cache5.key_cache.getD 0 [])
            (mlaForwardTrace (mkMLA cfg5 0 w5) sdpaQ false noiseT noiseT h5 (some cache5) none).keyLatent
    ∧ (mlaForwardTrace (mkMLA cfg5 0 w5) sdpaQ false noiseT noiseT h5 (some cache5) none).valueCached
        = catSeq (cache5.value_cache.getD 0 [])
            (mlaForwardTrace (mkMLA cfg5 0 w5) sdpaQ false noiseT noiseT h5 (some cache5) none).valueLatent
    ∧ t3WidthAll (mlaForwardTrace (mkMLA cfg5 0 w5) sdpaQ false noiseT noiseT h5 (some cache5) none).queryUp
        cfg5.hidden_size = true
    ∧ t3WidthAll (mlaForwardTrace (mkMLA cfg5 0 w5) sdpaQ false noiseT noiseT h5 (some cache5) none).keyUp
        cfg5.hidden_size = true := by
  have hp := mla_latent_pipeline cfg5 0 w5 sdpaQ false noiseT noiseT h5
    (some cache5) none (by decide)
  obtain ⟨p1, p2, p3, p4, p5, p6, p7, p8, p9⟩ := hp
  have hc := p5 cache5 rfl
  exact ⟨p1, p2, (hc.2.2 (by decide)).1, (hc.2.2 (by decide)).2, p7, p8⟩

/-- C10: whenever the shape semantics of the attention forward returns an
output for a (batch, sequence, hidden_size) input, its last dimension is
num_heads * (hidden_size / num_heads) with integer division — which
equals the input hidden width exactly when num_heads divides hidden_size
(and a returned output forces that divisibility). -/
theorem mla_output_last_dim (cfg : Config) (b s cl : Nat) (uc : Bool)
    (w1 w2 w3 : Nat)
    (hout : mlaForwardShape cfg (b, s, cfg.hidden_size) cl uc = some (w1, w2, w3)) :
    w3 = cfg.num_attention_heads * (cfg.hidden_size / cfg.num_attention_heads)
    ∧ cfg.num_attention_heads ∣ cfg.hidden_size
    ∧ (w3 = cfg.hidden_size ↔ cfg.num_attention_heads ∣ cfg.hidden_size) := by
  unfold mlaForwardShape at hout
  dsimp only at hout
  rw [if_neg (by simp)] at hout
  split at hout
  · exact Option.noConfusion hout
  · split at hout
    · exact Option.noConfusion hout
    · split at hout
      · exact Option.noConfusion hout
      · split at hout
        · exact Option.noConfusion hout
        · split at hout
          · exact Option.noConfusion hout
          · next hce =>
            rw [not_ne_iff] at hce
            simp only [Option.some.injEq, Prod.mk.injEq] at hout
            obtain ⟨-, -, hw3⟩ := hout
            have hdvd : cfg.num_attention_heads ∣ cfg.hidden_size :=
              ⟨cfg.hidden_size / cfg.num_attention_heads, hce.symm⟩
            refine ⟨?_, hdvd, ?_⟩
            · rw [hce]
              exact hw3.symm
            · exact ⟨fun _ => hdvd, fun _ => hw3.symm⟩

/-- Witness for C10 at a concrete configuration with 2 heads over hidden
width 4. -/
theorem mla_output_last_dim_inst :
    (4 : Nat) = c10cfg.num_attention_heads * (c10cfg.hidden_size / c10cfg.num_attention_heads)
    ∧ c10cfg.num_attention_heads ∣ c10cfg.hidden_size
    ∧ ((4 : Nat) = c10cfg.hidden_size ↔ c10cfg.num_attention_heads ∣ c10cfg.hidden_size) :=
  mla_output_last_dim c10cfg 1 1 0 false 1 1 4 (by decide)

end GraniteMoeHybrid
